import Mathlib

/-!
Verification of the jules-app metrics-computation engine (analyzer.py, parser.py).

The engine is embedded shallowly over exact rationals: pandas Series become
lists of optional rationals (a channel), dropna becomes filterMap, session
summaries become a record of optional scalars.  Python float arithmetic is
modelled by exact arithmetic over the rationals; the two irrational
operations of the source (the sample standard deviation, numpy square root,
and the fourth root closing Normalized Power) are threaded through as
oracle parameters or specified relationally, since exact roots are not
rational.  The one genuinely fallible spot of the source (a None value
reaching a Python arithmetic operator, which raises TypeError) is modelled
with Except.
-/

namespace JulesApp

/-- A record channel: one optional value per sample row, mirroring a pandas
column where absent cells are NaN. -/
abbrev Channel := List (Option ℚ)

/-- pandas Series.dropna: keep the present values, order preserved. -/
def dropna (c : Channel) : List ℚ := c.filterMap id

/-- Python str.lower on the sport strings of the engine (structurally
recursive character map, so concrete sports evaluate). -/
def strLower (s : String) : String := ⟨s.data.map Char.toLower⟩

/-- Series.mean of the source, total over lists (sources only call it on
non-empty data). -/
def listMean (l : List ℚ) : ℚ := l.sum / (l.length : ℚ)

/-- Series.min on a non-empty series (0 junk value on empty, never used). -/
def listMin (l : List ℚ) : ℚ :=
  match l with
  | [] => 0
  | x :: xs => xs.foldl min x

/-- Series.max on a non-empty series (0 junk value on empty, never used). -/
def listMax (l : List ℚ) : ℚ :=
  match l with
  | [] => 0
  | x :: xs => xs.foldl max x

/-- Series.std squared: the pandas sample variance (ddof = 1).  The source
only ever consumes the standard deviation, the square root of this. -/
def sampleVariance (l : List ℚ) : ℚ :=
  ((l.map (fun x => (x - listMean l) ^ 2)).sum) / ((l.length : ℚ) - 1)

/-- The session_info mapping of parser.py: every field may be absent.
Field names follow the FIT session keys used in analyzer.py. -/
structure Session where
  sport : String
  totalElapsedTime : Option ℚ
  totalTimerTime : Option ℚ
  totalDistance : Option ℚ
  totalCalories : Option ℚ
  totalAscent : Option ℚ
  totalDescent : Option ℚ
  avgHeartRate : Option ℚ
  maxHeartRate : Option ℚ
  avgPower : Option ℚ
  maxPower : Option ℚ
deriving DecidableEq

/-- A session with every field absent (empty session_info dict). -/
def emptySession : Session :=
  ⟨"", none, none, none, none, none, none, none, none, none, none⟩

/-- The records DataFrame: each column is either absent from the frame or a
channel of optional per-row values.  All columns of one frame have the same
row count in the source; the model does not need that invariant. -/
structure Records where
  heartRate : Option Channel
  power : Option Channel
  speed : Option Channel
  altitude : Option Channel
  temperature : Option Channel
deriving DecidableEq

/-! ## Zone calculators (analyzer.py _calculate_hr_zones / _calculate_power_zones) -/

/-- One zone row: label, inclusive lower bound, inclusive upper bound
(none for the float(inf) upper bound of the last power zone). -/
structure Zone where
  label : String
  lo : ℚ
  hi : Option ℚ
deriving DecidableEq

/-- Membership test of the source: (data >= min) & (data <= max); the
float(inf) upper bound is satisfied by every value. -/
def inZone (z : Zone) (x : ℚ) : Bool :=
  decide (z.lo ≤ x) && (match z.hi with | some h => decide (x ≤ h) | none => true)

/-- The fixed 5-zone heart-rate table of _calculate_hr_zones. -/
def hrZoneTable (maxHr : ℚ) : List Zone :=
  [⟨"Zone 1 (50-60%)", 0.5 * maxHr, some (0.6 * maxHr)⟩,
   ⟨"Zone 2 (60-70%)", 0.6 * maxHr, some (0.7 * maxHr)⟩,
   ⟨"Zone 3 (70-80%)", 0.7 * maxHr, some (0.8 * maxHr)⟩,
   ⟨"Zone 4 (80-90%)", 0.8 * maxHr, some (0.9 * maxHr)⟩,
   ⟨"Zone 5 (90-100%)", 0.9 * maxHr, some maxHr⟩]

/-- The fixed 6-zone power table of _calculate_power_zones. -/
def powerZoneTable (ftp : ℚ) : List Zone :=
  [⟨"Zone 1 (0-55%)", 0, some (0.55 * ftp)⟩,
   ⟨"Zone 2 (55-75%)", 0.55 * ftp, some (0.75 * ftp)⟩,
   ⟨"Zone 3 (75-90%)", 0.75 * ftp, some (0.90 * ftp)⟩,
   ⟨"Zone 4 (90-105%)", 0.90 * ftp, some (1.05 * ftp)⟩,
   ⟨"Zone 5 (105-120%)", 1.05 * ftp, some (1.20 * ftp)⟩,
   ⟨"Zone 6 (120%+)", 1.20 * ftp, none⟩]

/-- The shared loop body of both zone calculators: per zone, the percentage
of samples inside it, 0 for an empty channel. -/
def calcZonePercents (data : List ℚ) (table : List Zone) : List (String × ℚ) :=
  table.map (fun z =>
    (z.label,
      if 0 < data.length then
        ((data.filter (fun x => inZone z x)).length : ℚ) / (data.length : ℚ) * 100
      else 0))

/-- analyzer.py _calculate_hr_zones. -/
def calculateHrZones (data : List ℚ) (maxHr : ℚ) : List (String × ℚ) :=
  calcZonePercents data (hrZoneTable maxHr)

/-- analyzer.py _calculate_power_zones. -/
def calculatePowerZones (data : List ℚ) (ftp : ℚ) : List (String × ℚ) :=
  calcZonePercents data (powerZoneTable ftp)

/-- Sum of the per-zone percentages of a zone result. -/
def zonePercentSum (l : List (String × ℚ)) : ℚ := (l.map Prod.snd).sum

/-! ## Normalized Power pipeline (analyzer.py _calculate_normalized_power) -/

/-- The rational part of _calculate_normalized_power: fewer than 30 samples
give the None sentinel; otherwise the centered 30-sample rolling mean keeps
exactly the full windows, i.e. every contiguous 30-sample window once
(positions without a full window are NaN and are skipped by the final
Series.mean); this is the mean of the fourth powers of the window means.
The source closes with ** 0.25, the fourth root, captured by
npFourthRootReturns below. -/
def rollingMeanFourth (data : List ℚ) : Option ℚ :=
  if data.length < 30 then none
  else
    some (listMean ((List.range (data.length - 29)).map
      (fun j => (listMean ((data.drop j).take 30)) ^ 4)))

/-- The value the source returns for a power series: the unique nonnegative
fourth root of the mean of fourth powers. -/
def npFourthRootReturns (data : List ℚ) (r : ℚ) : Prop :=
  0 ≤ r ∧ rollingMeanFourth data = some (r ^ 4)

/-- parser.py _calculate_normalized_power, a verbatim duplicate of the
analyzer implementation. -/
def parserRollingMeanFourth (data : List ℚ) : Option ℚ :=
  if data.length < 30 then none
  else
    some (listMean ((List.range (data.length - 29)).map
      (fun j => (listMean ((data.drop j).take 30)) ^ 4)))

/-! ## Intensity factor, TSS, HR drift -/

/-- analyzer.py _calculate_intensity_factor. -/
def calculateIntensityFactor (normalizedPower : Option ℚ) (ftp : ℚ) : Option ℚ :=
  match normalizedPower with
  | none => none
  | some np => if ftp ≤ 0 then none else some (np / ftp)

/-- analyzer.py _calculate_tss; the normalized-power argument is unused in
the source as well. -/
def calculateTss (_normalizedPower intensityFactor : Option ℚ)
    (durationHours : ℚ) : Option ℚ :=
  match intensityFactor with
  | none => none
  | some f => if durationHours ≤ 0 then none else some (durationHours * f ^ 2 * 100)

/-- The ordinary-least-squares slope of ys against indices 0..n-1, the
mathematical value of np.polyfit(x, ys, 1)[0]. -/
def olsSlope (ys : List ℚ) : ℚ :=
  let n : ℚ := (ys.length : ℚ)
  let xs : List ℚ := (List.range ys.length).map (fun i : ℕ => (i : ℚ))
  let sx := xs.sum
  let sy := ys.sum
  let sxx := (xs.map (fun x => x ^ 2)).sum
  let sxy := (List.zipWith (fun x y => x * y) xs ys).sum
  (n * sxy - sx * sy) / (n * sxx - sx ^ 2)

/-- analyzer.py _calculate_hr_drift. -/
def calculateHrDrift (ys : List ℚ) : Option ℚ :=
  if ys.length < 10 then none else some (olsSlope ys)

/-! ## Heart-rate group (analyzer.py _analyze_heart_rate) -/

/-- The heart_rate_analysis dict when non-empty. -/
structure HRAnalysis where
  avgHr : ℚ
  maxHr : ℚ
  minHr : ℚ
  hrRange : ℚ
  hrStd : ℚ
  hrVariability : ℚ
  hrZones : List (String × ℚ)
  hrDrift : Option ℚ
deriving DecidableEq

/-- analyzer.py _analyze_heart_rate.  none models the empty dict returned
for an all-absent channel.  sqrtO stands for the real square root used by
Series.std: the field hrStd is sqrtO applied to the sample variance.  The
hr_variability division is unguarded in the source; for a zero average,
numpy float division yields inf or nan without raising, modelled here by
total division on the rationals. -/
def analyzeHeartRate (hrChannel : Channel) (session : Session)
    (sqrtO : ℚ → ℚ) : Option HRAnalysis :=
  let data := dropna hrChannel
  if data = [] then none
  else
    let avgHr := session.avgHeartRate.getD (listMean data)
    let maxHr := session.maxHeartRate.getD (listMax data)
    let minHr := listMin data
    let hrStd := sqrtO (sampleVariance data)
    some
      { avgHr := avgHr
        maxHr := maxHr
        minHr := minHr
        hrRange := maxHr - minHr
        hrStd := hrStd
        hrVariability := hrStd / avgHr * 100
        hrZones := calculateHrZones data 190
        hrDrift := calculateHrDrift data }

/-! ## Power group (analyzer.py _analyze_power) -/

/-- A Python TypeError raised by applying an arithmetic operator to None. -/
inductive PyError where
  | typeError
deriving DecidableEq

/-- The power_analysis dict when non-empty. -/
structure PowerAnalysis where
  avgPower : ℚ
  maxPower : ℚ
  minPower : ℚ
  powerStd : ℚ
  normalizedPower : Option ℚ
  intensityFactor : Option ℚ
  trainingStressScore : Option ℚ
  powerZones : List (String × ℚ)
  variabilityIndex : ℚ
deriving DecidableEq

/-- analyzer.py _analyze_power.  root4O stands for the real fourth root
closing _calculate_normalized_power (x ** 0.25): the stored normalized
power is root4O applied to the mean of fourth powers.  The source computes
duration as len(power_data) / 60 and passes it as duration_hours to
_calculate_tss.  The variability_index line divides normalized_power by
avg_power whenever avg_power > 0 with no None guard, so a None normalized
power (fewer than 30 samples) raises TypeError there. -/
def analyzePower (powerChannel : Channel) (session : Session)
    (sqrtO root4O : ℚ → ℚ) : Except PyError (Option PowerAnalysis) :=
  let data := dropna powerChannel
  if data = [] then .ok none
  else
    let avgPower := session.avgPower.getD (listMean data)
    let maxPower := session.maxPower.getD (listMax data)
    let np := (rollingMeanFourth data).map root4O
    let iF := calculateIntensityFactor np 250
    let tss := calculateTss np iF ((data.length : ℚ) / 60)
    let zones := calculatePowerZones data 250
    let mk : ℚ → PowerAnalysis := fun vi =>
      { avgPower := avgPower
        maxPower := maxPower
        minPower := listMin data
        powerStd := sqrtO (sampleVariance data)
        normalizedPower := np
        intensityFactor := iF
        trainingStressScore := tss
        powerZones := zones
        variabilityIndex := vi }
    if 0 < avgPower then
      match np with
      | none => .error .typeError
      | some v => .ok (some (mk (v / avgPower)))
    else .ok (some (mk 0))

/-! ## Pace and speed group (analyzer.py _analyze_pace_speed) -/

/-- The pace_speed_analysis dict when non-empty: the option on each field
models key presence (the running branch writes only pace keys, the other
branch only speed keys). -/
structure PaceSpeedAnalysis where
  avgPaceMinPerKm : Option ℚ
  bestPaceMinPerKm : Option ℚ
  paceVariability : Option ℚ
  avgSpeedKmh : Option ℚ
  maxSpeedKmh : Option ℚ
  speedVariability : Option ℚ
deriving DecidableEq

/-- analyzer.py _analyze_pace_speed.  A zero speed sample makes the pandas
pace conversion produce inf in the source; total rational division stands
in for that junk value, which no claim touches. -/
def analyzePaceSpeed (speedChannel : Channel) (session : Session)
    (sqrtO : ℚ → ℚ) : Option PaceSpeedAnalysis :=
  let data := dropna speedChannel
  if data = [] then none
  else
    let sport := strLower session.sport
    if sport = "running" ∨ sport = "walking" then
      let paceData := data.map (fun s => 1000 / (s * 60))
      some
        { avgPaceMinPerKm := some (listMean paceData)
          bestPaceMinPerKm := some (listMin paceData)
          paceVariability := some (sqrtO (sampleVariance paceData))
          avgSpeedKmh := none
          maxSpeedKmh := none
          speedVariability := none }
    else
      let speedKmh := data.map (fun s => s * 3.6)
      some
        { avgPaceMinPerKm := none
          bestPaceMinPerKm := none
          paceVariability := none
          avgSpeedKmh := some (listMean speedKmh)
          maxSpeedKmh := some (listMax speedKmh)
          speedVariability := some (sqrtO (sampleVariance speedKmh)) }

/-! ## Basic metrics (analyzer.py _analyze_basic_metrics, _format_duration) -/

/-- Left-pad a nonnegative integer to two digits, the %02d of the source. -/
def pad2 (n : ℤ) : String :=
  if 0 ≤ n ∧ n < 10 then "0" ++ toString n else toString n

/-- analyzer.py _format_duration, for the nonnegative inputs the engine
feeds it (Python int() truncation and floor agree there). -/
def formatDuration (seconds : ℚ) : String :=
  if seconds = 0 then "0:00:00"
  else
    let h : ℤ := ⌊seconds / 3600⌋
    let rem : ℚ := seconds - 3600 * (h : ℚ)
    let m : ℤ := ⌊rem / 60⌋
    let s : ℤ := ⌊seconds - 60 * (⌊seconds / 60⌋ : ℚ)⌋
    toString h ++ ":" ++ pad2 m ++ ":" ++ pad2 s

/-- The basic_metrics dict.  The source key elevation_gain_ratio is the
elevGainPerKm field (ascent metres per kilometre). -/
structure BasicMetrics where
  totalDuration : String
  movingDuration : String
  stoppedTime : ℚ
  activityFactor : ℚ
  totalDistanceKm : ℚ
  totalAscentM : ℚ
  totalDescentM : ℚ
  elevGainPerKm : ℚ
  totalCalories : ℚ
  caloriesPerHour : ℚ
deriving DecidableEq

/-- analyzer.py _analyze_basic_metrics; the records argument is unused in
the source too.  stopped_time uses Python truthiness: the difference is
taken only when both times are nonzero (absent keys default to 0). -/
def analyzeBasicMetrics (session : Session) (_records : Option Records) :
    BasicMetrics :=
  let totalTime := session.totalElapsedTime.getD 0
  let movingTime := session.totalTimerTime.getD 0
  let distance := session.totalDistance.getD 0
  let distanceKm := if distance ≠ 0 then distance / 1000 else 0
  let ascent := session.totalAscent.getD 0
  let calories := session.totalCalories.getD 0
  { totalDuration := formatDuration totalTime
    movingDuration := formatDuration movingTime
    stoppedTime :=
      if totalTime ≠ 0 ∧ movingTime ≠ 0 then totalTime - movingTime else 0
    activityFactor := if 0 < totalTime then movingTime / totalTime * 100 else 0
    totalDistanceKm := distanceKm
    totalAscentM := ascent
    totalDescentM := session.totalDescent.getD 0
    elevGainPerKm := if 0 < distanceKm then ascent / distanceKm else 0
    totalCalories := calories
    caloriesPerHour := if 0 < movingTime then calories / (movingTime / 3600) else 0 }

/-! ## Training zones group (analyzer.py _analyze_training_zones) -/

/-- The training_zones dict: each key present only when the channel exists
and has data. -/
structure TrainingZones where
  hrZonesTime : Option (List (String × ℚ))
  powerZonesTime : Option (List (String × ℚ))
deriving DecidableEq

/-- analyzer.py _analyze_training_zones. -/
def analyzeTrainingZones (records : Option Records) : TrainingZones :=
  match records with
  | none => ⟨none, none⟩
  | some r =>
    let hz := match r.heartRate with
      | some c =>
        let d := dropna c
        if d = [] then none else some (calculateHrZones d 190)
      | none => none
    let pz := match r.power with
      | some c =>
        let d := dropna c
        if d = [] then none else some (calculatePowerZones d 250)
      | none => none
    ⟨hz, pz⟩

/-! ## Performance insights (analyzer.py _generate_performance_insights) -/

/-- analyzer.py _analyze_pacing_strategy: only the pace_variability key is
consulted; analyses carrying only speed keys fall to the closing message. -/
def pacingStrategyMsg (pa : PaceSpeedAnalysis) : String :=
  match pa.paceVariability with
  | some v =>
    if v < 0.5 then "Very consistent pacing - excellent for endurance"
    else if v < 1.0 then "Good pacing consistency"
    else "Variable pacing - may indicate fatigue or tactical changes"
  | none => "Pacing analysis requires more data"

/-- dict.get with default 0 over an association list of zone percentages. -/
def lookupD (l : List (String × ℚ)) (k : String) : ℚ :=
  match l.find? (fun p => p.1 == k) with
  | some p => p.2
  | none => 0

/-- analyzer.py _analyze_effort_distribution on a non-empty heart-rate
group (which always carries hr_zones). -/
def effortDistributionMsg (hra : HRAnalysis) : String :=
  let zones := hra.hrZones
  let zone2Time := lookupD zones "Zone 2 (60-70%)"
  let highIntensity :=
    lookupD zones "Zone 4 (80-90%)" + lookupD zones "Zone 5 (90-100%)"
  if 70 < zone2Time then "Primarily aerobic base training"
  else if 20 < highIntensity then "High-intensity training session"
  else "Mixed intensity training"

/-- analyzer.py _analyze_fatigue_indicators.  The source evaluates
heart_rate_analysis.get(hr_drift, 0) > 0.1: with a non-empty heart-rate
group holding the None drift sentinel (fewer than 10 samples) this is
None > 0.1, a TypeError in Python 3. -/
def fatigueIndicatorsList (hra : Option HRAnalysis) (pwa : Option PowerAnalysis) :
    Except PyError (List String) :=
  let viFlag : Bool :=
    match pwa with
    | some p => decide (1.1 < p.variabilityIndex)
    | none => false
  let finish : Bool → List String := fun hrFlag =>
    let l :=
      (if hrFlag then
        ["Significant heart rate drift indicating cardiovascular fatigue"]
       else []) ++
      (if viFlag then
        ["High power variability suggesting fatigue or pacing issues"]
       else [])
    if l = [] then ["No significant fatigue indicators detected"] else l
  match hra with
  | some h =>
    match h.hrDrift with
    | none => .error .typeError
    | some d => .ok (finish (decide (0.1 < d)))
  | none => .ok (finish false)

/-- analyzer.py _assess_workout_quality.  The first argument models the
heart_rate_analysis entry as seen by the function: none when the key is
absent from the analysis dict, some v when present with v the result of
the hr_variability lookup (itself none for the empty dict).  The
completion factor is counted unconditionally (factors += 1 sits outside
the guard), and the key guard scores a point off the 0 default even for an
empty heart-rate group. -/
def assessWorkoutQuality (hrGroup : Option (Option ℚ)) (session : Session) :
    String :=
  let hrScore : ℕ :=
    match hrGroup with
    | some v => if v.getD 0 < 10 then 1 else 0
    | none => 0
  let hrFactor : ℕ := match hrGroup with | some _ => 1 | none => 0
  let totalTime := session.totalElapsedTime.getD 0
  let movingTime := session.totalTimerTime.getD 0
  let completionScore : ℕ :=
    if 0 < totalTime ∧ 0.8 < movingTime / totalTime then 1 else 0
  let qualityScore := hrScore + completionScore
  let factors := hrFactor + 1
  if 0 < factors then
    let q : ℚ := (qualityScore : ℚ) / (factors : ℚ)
    if 0.8 < q then "Excellent workout quality"
    else if 0.6 < q then "Good workout quality"
    else "Room for improvement in workout quality"
  else "Workout quality assessment requires more data"

/-- The performance_insights dict. -/
structure Insights where
  pacingStrategy : Option String
  effortDistribution : Option String
  fatigueIndicators : List String
  workoutQuality : String
deriving DecidableEq

/-- analyzer.py _generate_performance_insights: pacing and effort keys are
written only when their groups are truthy; the orchestrator always has the
heart_rate_analysis key, so the quality assessment sees some group. -/
def generatePerformanceInsights (hra : Option HRAnalysis)
    (pwa : Option PowerAnalysis) (psa : Option PaceSpeedAnalysis)
    (session : Session) : Except PyError Insights := do
  let pacing := psa.map pacingStrategyMsg
  let effort := hra.map effortDistributionMsg
  let fatigue ← fatigueIndicatorsList hra pwa
  let quality := assessWorkoutQuality (some (hra.map (fun h => h.hrVariability))) session
  pure ⟨pacing, effort, fatigue, quality⟩

/-! ## Efficiency and environmental groups -/

/-- The efficiency_metrics dict. -/
structure EfficiencyMetrics where
  hrEfficiency : Option ℚ
  powerEfficiency : Option ℚ
deriving DecidableEq

/-- One arm of analyzer.py _calculate_efficiency_metrics: mean of
speed/denominator over the rows where both channels are present, emitted
only when both channels are individually non-empty and the row
intersection is non-empty. -/
def channelPairEfficiency (denChannel speedChannel : Channel) : Option ℚ :=
  let dd := dropna denChannel
  let sd := dropna speedChannel
  if dd ≠ [] ∧ sd ≠ [] then
    let common := (List.zip denChannel speedChannel).filterMap
      (fun p => match p with
        | (some d, some s) => some (s / d)
        | _ => none)
    if 0 < common.length then some (listMean common) else none
  else none

/-- analyzer.py _calculate_efficiency_metrics. -/
def calculateEfficiencyMetrics (records : Option Records) : EfficiencyMetrics :=
  match records with
  | none => ⟨none, none⟩
  | some r =>
    let hrEff := match r.heartRate, r.speed with
      | some hc, some sc => channelPairEfficiency hc sc
      | _, _ => none
    let powerEff := match r.power, r.speed with
      | some pc, some sc => channelPairEfficiency pc sc
      | _, _ => none
    ⟨hrEff, powerEff⟩

/-- The elevation_profile sub-dict. -/
structure ElevationProfile where
  minElevation : ℚ
  maxElevation : ℚ
  elevationRange : ℚ
  avgElevation : ℚ
deriving DecidableEq

/-- The environmental_factors dict. -/
structure EnvironmentalFactors where
  avgTemperature : Option ℚ
  tempRange : Option ℚ
  elevationProfile : Option ElevationProfile
deriving DecidableEq

/-- analyzer.py _analyze_environmental_factors. -/
def analyzeEnvironmentalFactors (records : Option Records) :
    EnvironmentalFactors :=
  match records with
  | none => ⟨none, none, none⟩
  | some r =>
    let temp := match r.temperature with
      | some c =>
        let d := dropna c
        if d = [] then (none, none)
        else (some (listMean d), some (listMax d - listMin d))
      | none => (none, none)
    let elev := match r.altitude with
      | some c =>
        let d := dropna c
        if d = [] then none
        else some (ElevationProfile.mk (listMin d) (listMax d)
          (listMax d - listMin d) (listMean d))
      | none => none
    ⟨temp.1, temp.2, elev⟩

/-! ## Orchestrator (analyzer.py analyze_activity) -/

/-- The input of analyze_activity: session_info plus the optional records
DataFrame. -/
structure ActivityData where
  sessionInfo : Session
  records : Option Records
deriving DecidableEq

/-- The full analysis report: all eight groups of analyze_activity. -/
structure Report where
  basicMetrics : BasicMetrics
  heartRateAnalysis : Option HRAnalysis
  powerAnalysis : Option PowerAnalysis
  paceSpeedAnalysis : Option PaceSpeedAnalysis
  trainingZones : TrainingZones
  performanceInsights : Insights
  efficiencyMetrics : EfficiencyMetrics
  environmentalFactors : EnvironmentalFactors
deriving DecidableEq

/-- analyzer.py analyze_activity, composing the groups in source order.
The two root oracles stand for the square root of Series.std and the
fourth root of the normalized-power pipeline.  An uncaught TypeError from
_analyze_power or _analyze_fatigue_indicators propagates out, exactly as
in the source, where analyze_activity installs no handler. -/
def analyzeActivity (activityData : ActivityData) (sqrtO root4O : ℚ → ℚ) :
    Except PyError Report := do
  let session := activityData.sessionInfo
  let records := activityData.records
  let basic := analyzeBasicMetrics session records
  let hra : Option HRAnalysis :=
    match records with
    | some r =>
      match r.heartRate with
      | some c => analyzeHeartRate c session sqrtO
      | none => none
    | none => none
  let pwa ← match records with
    | some r =>
      match r.power with
      | some c => analyzePower c session sqrtO root4O
      | none => pure none
    | none => pure none
  let psa : Option PaceSpeedAnalysis :=
    match records with
    | some r =>
      match r.speed with
      | some c => analyzePaceSpeed c session sqrtO
      | none => none
    | none => none
  let zones := analyzeTrainingZones records
  let insights ← generatePerformanceInsights hra pwa psa session
  let eff := calculateEfficiencyMetrics records
  let env := analyzeEnvironmentalFactors records
  pure
    { basicMetrics := basic
      heartRateAnalysis := hra
      powerAnalysis := pwa
      paceSpeedAnalysis := psa
      trainingZones := zones
      performanceInsights := insights
      efficiencyMetrics := eff
      environmentalFactors := env }

/-! ## Shared helper lemmas -/

/-- The mean of a constant list is the constant. -/
lemma listMean_replicate (n : ℕ) (c : ℚ) (hn : n ≠ 0) :
    listMean (List.replicate n c) = c := by
  rw [listMean, List.sum_replicate, List.length_replicate, nsmul_eq_mul]
  exact mul_div_cancel_left₀ c (by exact_mod_cast hn)

/-- dropna of a constant all-present channel. -/
lemma dropna_replicate_some (n : ℕ) (x : ℚ) :
    dropna (List.replicate n (some x)) = List.replicate n x := by
  simp [dropna, List.filterMap_replicate]

/-- On a constant series of length at least 30 the rolling-window pipeline
computes the constant to the fourth. -/
lemma rollingMeanFourth_replicate (n : ℕ) (P : ℚ) (hn : 30 ≤ n) :
    rollingMeanFourth (List.replicate n P) = some (P ^ 4) := by
  rw [rollingMeanFourth, List.length_replicate, if_neg (by omega)]
  have hwin : ∀ j ∈ List.range (n - 29),
      (listMean (((List.replicate n P).drop j).take 30)) ^ 4 =
        (fun _ : ℕ => P ^ 4) j := by
    intro j hj
    rw [List.mem_range] at hj
    rw [List.drop_replicate, List.take_replicate]
    have hmin : 30 ⊓ (n - j) = 30 := by omega
    rw [hmin, listMean_replicate 30 P (by norm_num)]
  rw [List.map_congr_left hwin]
  rw [show (fun _ : ℕ => P ^ 4) = Function.const ℕ (P ^ 4) from rfl]
  rw [List.map_const, listMean_replicate _ _ (by simpa using by omega)]

/-! ## Claim C9 -/

/-- Claim C9: the two Normalized Power implementations,
ActivityAnalyzer._calculate_normalized_power and
FitFileParser._calculate_normalized_power, agree on every power series:
the same None sentinel below 30 samples and the same mean of fourth
powers of rolling-window means otherwise (the final fourth root is the
same function of that shared value). -/
theorem C9_np_duplicates_agree :
    ∀ data : List ℚ, rollingMeanFourth data = parserRollingMeanFourth data :=
  fun _ => rfl

/-! ## Claim C3 -/

/-- Claim C3: Normalized Power is the None sentinel for every power series
of fewer than 30 samples, and on a constant series of nonnegative value P
with at least 30 samples the pipeline returns exactly P: the mean of the
fourth powers of the window means is P to the fourth, so the closing
fourth root yields P. -/
theorem C3_normalized_power (d : List ℚ) (n : ℕ) (P : ℚ)
    (hd : d.length < 30) (hn : 30 ≤ n) (hP : 0 ≤ P) :
    rollingMeanFourth d = none ∧ npFourthRootReturns (List.replicate n P) P :=
  ⟨by rw [rollingMeanFourth, if_pos hd],
   ⟨hP, rollingMeanFourth_replicate n P hn⟩⟩

/-- Witness for C3 at a 30-sample constant series of 5 watts. -/
theorem C3_witness :
    rollingMeanFourth [] = none ∧
      npFourthRootReturns (List.replicate 30 5) 5 :=
  C3_normalized_power [] 30 5 (by norm_num) (by norm_num) (by norm_num)

/-! ## Claim C1 -/

/-- Claim C1 evaluation: on a one-hour constant ride (3600 samples of
200 W, FTP 250), the mean of fourth powers is 200^4 so Normalized Power
is 200 and the Intensity Factor is 200/250; the source passes
len(power_data)/60 = 60 as duration_hours (analyzer.py line 153), giving
TSS 3840, while the claimed duration of count/3600 = 1 hour gives 64. -/
theorem C1_tss_divergence :
    rollingMeanFourth (List.replicate 3600 (200 : ℚ)) = some (200 ^ 4) ∧
    calculateTss (some 200) (calculateIntensityFactor (some 200) 250)
      ((3600 : ℚ) / 60) = some 3840 ∧
    calculateTss (some 200) (calculateIntensityFactor (some 200) 250)
      ((3600 : ℚ) / 3600) = some 64 ∧
    (3840 : ℚ) ≠ 64 := by
  refine ⟨rollingMeanFourth_replicate 3600 200 (by norm_num), ?_, ?_, by norm_num⟩
  · norm_num [calculateTss, calculateIntensityFactor]
  · norm_num [calculateTss, calculateIntensityFactor]

/-! ## Claim C4 -/

/-- Claim C4: for every non-empty heart-rate channel the produced group
has hr_variability equal to hr_std divided by the effective average times
100, where hr_std is the (square root oracle of the) sample variance and
the effective average prefers the session value.  No nonzero hypothesis on
the average is needed: the division is total here, as in the source, where
numpy float division by a zero average yields inf or nan without raising
(there is no explicit guard in the code; the observable no-exception
behavior is what this theorem captures). -/
theorem C4_hr_variability_formula (hrChannel : Channel) (session : Session)
    (sqrtO : ℚ → ℚ) (hne : dropna hrChannel ≠ []) :
    (analyzeHeartRate hrChannel session sqrtO).map (fun h => h.hrVariability) =
      some (sqrtO (sampleVariance (dropna hrChannel)) /
        session.avgHeartRate.getD (listMean (dropna hrChannel)) * 100) := by
  rw [analyzeHeartRate]
  simp only [if_neg hne]
  rfl

/-- Session with a zero stored average heart rate, for the C4 witness. -/
def c4Session : Session :=
  ⟨"", none, none, none, none, none, none, some 0, none, none, none⟩

/-- Witness for C4 at a concrete channel and a session whose stored
average heart rate is zero: the group is still produced with a defined
hr_variability value. -/
theorem C4_witness :
    (analyzeHeartRate [some 60, some 80] c4Session (fun q => q)).map
        (fun h => h.hrVariability) =
      some ((fun q : ℚ => q) (sampleVariance (dropna [some 60, some 80])) /
        c4Session.avgHeartRate.getD (listMean (dropna [some 60, some 80])) * 100) :=
  C4_hr_variability_formula [some 60, some 80] c4Session (fun q => q)
    (by simp [dropna])

/-! ## Claim C8 -/

/-- Elementwise product against a constant list of matching length. -/
lemma zipWith_mul_replicate (l : List ℚ) (c : ℚ) :
    List.zipWith (fun x y => x * y) l (List.replicate l.length c) =
      l.map (fun x => x * c) := by
  induction l with
  | nil => rfl
  | cons x xs ih => simpa [List.replicate_succ] using ih

/-- Length-generalized form of the previous lemma, convenient for rewriting. -/
lemma zipWith_mul_replicate' (l : List ℚ) (m : ℕ) (c : ℚ) (h : l.length = m) :
    List.zipWith (fun x y => x * y) l (List.replicate m c) =
      l.map (fun x => x * c) := by
  subst h
  exact zipWith_mul_replicate l c

/-- The OLS slope of any constant series is zero: the covariance numerator
vanishes identically. -/
lemma olsSlope_replicate (n : ℕ) (c : ℚ) :
    olsSlope (List.replicate n c) = 0 := by
  rw [olsSlope]
  simp only [List.length_replicate, List.sum_replicate, nsmul_eq_mul]
  have hz := zipWith_mul_replicate' ((List.range n).map (fun i : ℕ => (i : ℚ)))
    n c (by rw [List.length_map, List.length_range])
  rw [hz, List.sum_map_mul_right]
  set s : ℚ := ((List.range n).map (fun i : ℕ => (i : ℚ))).sum with hs
  set s2 : ℚ := (((List.range n).map (fun i : ℕ => (i : ℚ))).map (fun x => x ^ 2)).sum
  rw [show (List.map (fun x => x) ((List.range n).map (fun i : ℕ => (i : ℚ)))).sum = s
    from by rw [List.map_id', hs]]
  rw [show (n : ℚ) * (s * c) - s * ((n : ℚ) * c) = 0 from by ring, zero_div]

/-- Claim C8: HR drift is the None sentinel below 10 samples; at 10 or
more samples it is exactly the ordinary-least-squares slope of the series
against indices 0..n-1; and every constant series of length at least 10
has drift exactly 0. -/
theorem C8_hr_drift (d e : List ℚ) (n : ℕ) (c : ℚ)
    (hd : d.length < 10) (he : 10 ≤ e.length) (hn : 10 ≤ n) :
    calculateHrDrift d = none ∧
    calculateHrDrift e = some (olsSlope e) ∧
    calculateHrDrift (List.replicate n c) = some 0 := by
  refine ⟨by rw [calculateHrDrift, if_pos hd],
    by rw [calculateHrDrift, if_neg (by omega)], ?_⟩
  rw [calculateHrDrift, List.length_replicate, if_neg (by omega),
    olsSlope_replicate]

/-- Witness for C8 at concrete series: an empty series, a 10-sample
series, and a constant 10-sample series of 7 bpm. -/
theorem C8_witness :
    calculateHrDrift [] = none ∧
    calculateHrDrift (List.replicate 10 (7 : ℚ)) =
      some (olsSlope (List.replicate 10 (7 : ℚ))) ∧
    calculateHrDrift (List.replicate 10 (3 : ℚ)) = some 0 :=
  C8_hr_drift [] (List.replicate 10 (7 : ℚ)) 10 3 (by norm_num)
    (by norm_num) (by norm_num)

/-! ## Claim C10 -/

/-- Claim C10: stopped_time is 0 whenever either elapsed or timer time is
zero or absent (absent keys default to 0 before the Python truthiness
test), and equals their difference exactly when both are nonzero. -/
theorem C10_stopped_time (session : Session) (records : Option Records) :
    ((session.totalElapsedTime.getD 0 = 0 ∨ session.totalTimerTime.getD 0 = 0) →
      (analyzeBasicMetrics session records).stoppedTime = 0) ∧
    (session.totalElapsedTime.getD 0 ≠ 0 → session.totalTimerTime.getD 0 ≠ 0 →
      (analyzeBasicMetrics session records).stoppedTime =
        session.totalElapsedTime.getD 0 - session.totalTimerTime.getD 0) := by
  constructor
  · rintro (h | h) <;> simp [analyzeBasicMetrics, h]
  · intro h1 h2
    simp [analyzeBasicMetrics, h1, h2]

/-- Session with a positive elapsed time and an absent timer time, for the
C10 witness. -/
def c10Session : Session :=
  ⟨"", some 100, none, none, none, none, none, none, none, none, none⟩

/-- Witness for C10: positive elapsed time with an absent timer time gives
stopped_time 0, not the full elapsed time. -/
theorem C10_witness :
    (analyzeBasicMetrics c10Session none).stoppedTime = 0 :=
  (C10_stopped_time c10Session none).1 (Or.inr (by simp [c10Session]))

/-! ## Claim C5 -/

/-- The cycling session of the C5 counterexample. -/
def c5Session : Session :=
  ⟨"cycling", none, none, none, none, none, none, none, none, none, none⟩

/-- The pace_speed_analysis produced for two constant 1 m/s cycling
samples: speed keys only, with speed_variability exactly 0 (the sample
variance of a constant series is 0, so the identity oracle is the exact
square root here). -/
def c5Analysis : PaceSpeedAnalysis :=
  ⟨none, none, none, some 3.6, some 3.6, some 0⟩

/-- Counterexample to claim C5: a cycling activity with a non-empty speed
channel and speed standard deviation 0 < 0.5 is not classified as very
consistent; _analyze_pacing_strategy only reads pace_variability, which
the non-running branch never writes, so the insight is the fallback
message. -/
theorem C5_counterexample :
    analyzePaceSpeed [some 1, some 1] c5Session (fun q => q) = some c5Analysis ∧
    sampleVariance ((dropna [some 1, some 1]).map (fun s => s * 3.6)) = 0 ∧
    (0 : ℚ) < 0.5 ∧
    pacingStrategyMsg c5Analysis = "Pacing analysis requires more data" ∧
    pacingStrategyMsg c5Analysis ≠
      "Very consistent pacing - excellent for endurance" := by
  refine ⟨?_, ?_, by norm_num, rfl, by decide⟩
  · rw [analyzePaceSpeed]
    rw [if_neg (by simp [dropna]), if_neg (by decide)]
    norm_num [c5Analysis, dropna, listMean, listMax, sampleVariance, List.filterMap]
  · norm_num [dropna, sampleVariance, listMean, List.filterMap]

/-- Claim C5 amended: the pacing classification (std below 0.5 very
consistent, below 1.0 good consistency, else variable) applies exactly to
the running/walking branch, whose analysis carries pace_variability; every
other sport receives the fallback message however small its speed
standard deviation is. -/
theorem C5_pacing_amended (speedChannel : Channel) (session : Session)
    (sqrtO : ℚ → ℚ) (pa : PaceSpeedAnalysis)
    (h : analyzePaceSpeed speedChannel session sqrtO = some pa) :
    (strLower session.sport = "running" ∨ strLower session.sport = "walking" →
      pacingStrategyMsg pa =
        (if sqrtO (sampleVariance ((dropna speedChannel).map
            (fun s => 1000 / (s * 60)))) < 0.5 then
          "Very consistent pacing - excellent for endurance"
        else if sqrtO (sampleVariance ((dropna speedChannel).map
            (fun s => 1000 / (s * 60)))) < 1.0 then
          "Good pacing consistency"
        else "Variable pacing - may indicate fatigue or tactical changes")) ∧
    (¬(strLower session.sport = "running" ∨ strLower session.sport = "walking") →
      pacingStrategyMsg pa = "Pacing analysis requires more data") := by
  rw [analyzePaceSpeed] at h
  by_cases hd : dropna speedChannel = []
  · rw [if_pos hd] at h
    exact absurd h (by simp)
  · rw [if_neg hd] at h
    by_cases hs : strLower session.sport = "running" ∨
        strLower session.sport = "walking"
    · rw [if_pos hs] at h
      have hpa := (Option.some_inj).mp h
      constructor
      · intro _
        rw [← hpa]
        rfl
      · intro hn
        exact absurd hs hn
    · rw [if_neg hs] at h
      have hpa := (Option.some_inj).mp h
      constructor
      · intro hcon
        exact absurd hcon hs
      · intro _
        rw [← hpa]
        rfl

/-- Witness for the amended C5 at a concrete running activity (two
constant 1 m/s samples, pace std exactly 0): the insight is the very
consistent message. -/
theorem C5_witness :
    pacingStrategyMsg
        ⟨some (50 / 3), some (50 / 3), some 0, none, none, none⟩ =
      (if (fun q : ℚ => q) (sampleVariance ((dropna [some 1, some 1]).map
          (fun s => 1000 / (s * 60)))) < 0.5 then
        "Very consistent pacing - excellent for endurance"
      else if (fun q : ℚ => q) (sampleVariance ((dropna [some 1, some 1]).map
          (fun s => 1000 / (s * 60)))) < 1.0 then
        "Good pacing consistency"
      else "Variable pacing - may indicate fatigue or tactical changes") := by
  have h : analyzePaceSpeed [some 1, some 1]
      ⟨"running", none, none, none, none, none, none, none, none, none, none⟩
      (fun q => q) =
      some ⟨some (50 / 3), some (50 / 3), some 0, none, none, none⟩ := by
    rw [analyzePaceSpeed]
    rw [if_neg (by simp [dropna]), if_pos (by decide)]
    norm_num [dropna, listMean, listMin, sampleVariance, List.filterMap]
  exact (C5_pacing_amended [some 1, some 1]
    ⟨"running", none, none, none, none, none, none, none, none, none, none⟩
    (fun q => q) _ h).1 (by decide)

/-! ## Claim C6 -/

/-- Counterexample to claim C6: with no heart_rate_analysis key and no
positive elapsed time (zero evaluable factors in the words of the claim),
the function still emits a score classification, not the insufficient-data
message: the completion factor is counted unconditionally. -/
theorem C6_counterexample :
    assessWorkoutQuality none emptySession =
      "Room for improvement in workout quality" ∧
    assessWorkoutQuality none emptySession ≠
      "Workout quality assessment requires more data" := by
  have h : assessWorkoutQuality none emptySession =
      "Room for improvement in workout quality" := by
    norm_num [assessWorkoutQuality, emptySession]
  exact ⟨h, by rw [h]; decide⟩

/-- Claim C6 amended: one point if the hr_variability lookup (default 0)
is below 10 and the heart-rate key is present, one point if
moving/elapsed exceeds 0.8 with positive elapsed time; the completion
factor is always counted as attempted (factors += 1 is unconditional), so
the denominator is at least 1 and the insufficient-data branch is dead:
every input receives one of the three score classifications, with
thresholds 0.8 and 0.6 as claimed. -/
theorem C6_workout_quality_amended (hrGroup : Option (Option ℚ))
    (session : Session) :
    assessWorkoutQuality hrGroup session =
      (let hrScore : ℕ :=
        match hrGroup with
        | some v => if v.getD 0 < 10 then 1 else 0
        | none => 0
       let completionScore : ℕ :=
        if 0 < session.totalElapsedTime.getD 0 ∧
            0.8 < session.totalTimerTime.getD 0 / session.totalElapsedTime.getD 0
        then 1 else 0
       let factors : ℕ := (match hrGroup with | some _ => 1 | none => 0) + 1
       let q : ℚ := ((hrScore + completionScore : ℕ) : ℚ) / (factors : ℚ)
       if 0.8 < q then "Excellent workout quality"
       else if 0.6 < q then "Good workout quality"
       else "Room for improvement in workout quality") ∧
    assessWorkoutQuality hrGroup session ≠
      "Workout quality assessment requires more data" := by
  have hlive : assessWorkoutQuality hrGroup session =
      (let hrScore : ℕ :=
        match hrGroup with
        | some v => if v.getD 0 < 10 then 1 else 0
        | none => 0
       let completionScore : ℕ :=
        if 0 < session.totalElapsedTime.getD 0 ∧
            0.8 < session.totalTimerTime.getD 0 / session.totalElapsedTime.getD 0
        then 1 else 0
       let factors : ℕ := (match hrGroup with | some _ => 1 | none => 0) + 1
       let q : ℚ := ((hrScore + completionScore : ℕ) : ℚ) / (factors : ℚ)
       if 0.8 < q then "Excellent workout quality"
       else if 0.6 < q then "Good workout quality"
       else "Room for improvement in workout quality") := by
    cases hrGroup <;> rfl
  refine ⟨hlive, ?_⟩
  rw [hlive]
  simp only []
  split_ifs <;> decide

/-! ## Claim C7 -/

/-- The C7 failing input: a records frame whose only column is a power
channel of 10 present samples of 200 W (a valid short ride), with an empty
session summary. -/
def c7Input : ActivityData :=
  ⟨emptySession, some ⟨none, some (List.replicate 10 (some 200)), none, none, none⟩⟩

/-- Claim C7 evaluated on the failing input: with 1 to 29 power samples
normalized_power is the None sentinel while avg_power is positive, and the
variability_index line of _analyze_power divides None by avg_power
(analyzer.py:160), a TypeError that propagates out of analyze_activity
uncaught, so no report with the eight groups is produced.  (A second raise
path exists: with 1 to 9 heart-rate samples hr_drift is None and
_analyze_fatigue_indicators compares None > 0.1 at analyzer.py:429.) -/
theorem C7_orchestrator_raises :
    analyzeActivity c7Input (fun q => q) (fun q => q) =
      .error PyError.typeError := by
  have hp : analyzePower (List.replicate 10 (some (200 : ℚ))) emptySession
      (fun q => q) (fun q => q) = .error .typeError := by
    rw [analyzePower]
    rw [dropna_replicate_some]
    rw [if_neg (by simp)]
    simp [rollingMeanFourth, listMean_replicate, emptySession]
    norm_num [listMean]
  rw [analyzeActivity]
  simp only [c7Input]
  rw [hp]
  rfl

/-! ## Claim C2: zone percentage sums -/

/-- A value sitting exactly on a boundary shared by two adjacent
heart-rate zones (the four interior cut points of the 5-zone table). -/
def hrSharedBoundary (maxHr x : ℚ) : Prop :=
  x = 0.6 * maxHr ∨ x = 0.7 * maxHr ∨ x = 0.8 * maxHr ∨ x = 0.9 * maxHr

instance instDecHrSharedBoundary (maxHr x : ℚ) :
    Decidable (hrSharedBoundary maxHr x) :=
  inferInstanceAs (Decidable (x = 0.6 * maxHr ∨ x = 0.7 * maxHr ∨
    x = 0.8 * maxHr ∨ x = 0.9 * maxHr))

/-- A value sitting exactly on a boundary shared by two adjacent power
zones (the five interior cut points of the 6-zone table). -/
def powerSharedBoundary (ftp x : ℚ) : Prop :=
  x = 0.55 * ftp ∨ x = 0.75 * ftp ∨ x = 0.90 * ftp ∨ x = 1.05 * ftp ∨
    x = 1.20 * ftp

instance instDecPowerSharedBoundary (ftp x : ℚ) :
    Decidable (powerSharedBoundary ftp x) :=
  inferInstanceAs (Decidable (x = 0.55 * ftp ∨ x = 0.75 * ftp ∨
    x = 0.90 * ftp ∨ x = 1.05 * ftp ∨ x = 1.20 * ftp))

/-- The number of zones of a table containing a given value. -/
def zoneCount (table : List Zone) (x : ℚ) : ℕ :=
  (table.filter (fun z => inZone z x)).length

/-- zoneCount as a sum of per-zone indicators. -/
lemma zoneCount_eq_sum (table : List Zone) (x : ℚ) :
    zoneCount table x =
      (table.map (fun z => if inZone z x = true then (1 : ℕ) else 0)).sum := by
  induction table with
  | nil => rfl
  | cons z zs ih =>
    rw [zoneCount, List.filter_cons, List.map_cons, List.sum_cons, ← ih]
    by_cases h : inZone z x = true
    · rw [if_pos h, if_pos h, List.length_cons, zoneCount]
      omega
    · rw [if_neg h, if_neg h, zoneCount]
      omega

/-- Double counting: summing per-zone sample counts over the table equals
summing per-sample zone counts over the data. -/
lemma zoneHits_eq (table : List Zone) (data : List ℚ) :
    (table.map (fun z => (data.filter (fun x => inZone z x)).length)).sum =
      (data.map (fun x => zoneCount table x)).sum := by
  induction data with
  | nil => simp [List.filter_nil]
  | cons x xs ih =>
    have hsplit : ∀ z : Zone,
        ((x :: xs).filter (fun y => inZone z y)).length =
          (if inZone z x = true then (1 : ℕ) else 0) +
            (xs.filter (fun y => inZone z y)).length := by
      intro z
      rw [List.filter_cons]
      by_cases h : inZone z x = true
      · rw [if_pos h, if_pos h, List.length_cons]
        omega
      · rw [if_neg h, if_neg h]
        omega
    calc (table.map (fun z => ((x :: xs).filter (fun y => inZone z y)).length)).sum
        = (table.map (fun z => (if inZone z x = true then (1 : ℕ) else 0) +
            (xs.filter (fun y => inZone z y)).length)).sum := by
          rw [List.map_congr_left (fun z _ => hsplit z)]
      _ = (table.map (fun z => if inZone z x = true then (1 : ℕ) else 0)).sum +
            (table.map (fun z => (xs.filter (fun y => inZone z y)).length)).sum :=
          List.sum_map_add
      _ = zoneCount table x + (xs.map (fun y => zoneCount table y)).sum := by
          rw [← zoneCount_eq_sum, ih]
      _ = ((x :: xs).map (fun y => zoneCount table y)).sum := by
          rw [List.map_cons, List.sum_cons]

/-- Factoring the common /n*100 out of a sum of zone percentages. -/
lemma sum_map_div_mul (l : List Zone) (f : Zone → ℕ) (n : ℚ) :
    (l.map (fun z => ((f z : ℚ)) / n * 100)).sum =
      (((l.map f).sum : ℕ) : ℚ) / n * 100 := by
  induction l with
  | nil => simp
  | cons z zs ih =>
    rw [List.map_cons, List.sum_cons, ih, List.map_cons, List.sum_cons]
    push_cast
    ring

/-- For a non-empty channel, the percentage sum is the total hit count
over n times 100. -/
lemma zonePercentSum_eq (data : List ℚ) (table : List Zone) (hd : data ≠ []) :
    zonePercentSum (calcZonePercents data table) =
      (((table.map (fun z => (data.filter (fun x => inZone z x)).length)).sum : ℕ) : ℚ) /
        (data.length : ℚ) * 100 := by
  have hn : 0 < data.length := List.length_pos.mpr hd
  rw [zonePercentSum, calcZonePercents, List.map_map]
  have hcomp : (Prod.snd ∘ fun z : Zone =>
      ((z.label,
        if 0 < data.length then
          ((data.filter (fun x => inZone z x)).length : ℚ) / (data.length : ℚ) * 100
        else 0) : String × ℚ)) =
      fun z : Zone =>
        (((data.filter (fun x => inZone z x)).length : ℕ) : ℚ) /
          (data.length : ℚ) * 100 := by
    funext z
    simp [if_pos hn]
  rw [hcomp, sum_map_div_mul]

/-- Every in-range heart-rate value (between half the threshold and the
threshold) lies in exactly one zone, or exactly two when it sits on a
shared boundary. -/
lemma hr_zoneCount_eq (t x : ℚ) (ht : 0 < t) (hlo : 0.5 * t ≤ x)
    (hhi : x ≤ t) :
    zoneCount (hrZoneTable t) x = if hrSharedBoundary t x then 2 else 1 := by
  rw [zoneCount_eq_sum] <;> norm_num
  simp only [hrZoneTable, List.map_cons, List.map_nil, List.sum_cons,
    List.sum_nil, inZone, Bool.and_eq_true, decide_eq_true_eq,
    hrSharedBoundary]
  rcases lt_trichotomy x (0.6 * t) with h1 | h1 | h1
  · rw [if_pos ⟨hlo, h1.le⟩,
      if_neg (by rintro ⟨ha, hb⟩; linarith),
      if_neg (by rintro ⟨ha, hb⟩; linarith),
      if_neg (by rintro ⟨ha, hb⟩; linarith),
      if_neg (by rintro ⟨ha, hb⟩; linarith),
      if_neg (by rintro (h | h | h | h) <;> linarith)] <;> norm_num
  · rw [if_pos ⟨hlo, h1.le⟩,
      if_pos ⟨h1.ge, by linarith⟩,
      if_neg (by rintro ⟨ha, hb⟩; linarith),
      if_neg (by rintro ⟨ha, hb⟩; linarith),
      if_neg (by rintro ⟨ha, hb⟩; linarith),
      if_pos (Or.inl h1)] <;> norm_num
  · rcases lt_trichotomy x (0.7 * t) with h2 | h2 | h2
    · rw [if_neg (by rintro ⟨ha, hb⟩; linarith),
        if_pos ⟨h1.le, h2.le⟩,
        if_neg (by rintro ⟨ha, hb⟩; linarith),
        if_neg (by rintro ⟨ha, hb⟩; linarith),
        if_neg (by rintro ⟨ha, hb⟩; linarith),
        if_neg (by rintro (h | h | h | h) <;> linarith)] <;> norm_num
    · rw [if_neg (by rintro ⟨ha, hb⟩; linarith),
        if_pos ⟨h1.le, h2.le⟩,
        if_pos ⟨h2.ge, by linarith⟩,
        if_neg (by rintro ⟨ha, hb⟩; linarith),
        if_neg (by rintro ⟨ha, hb⟩; linarith),
        if_pos (Or.inr (Or.inl h2))] <;> norm_num
    · rcases lt_trichotomy x (0.8 * t) with h3 | h3 | h3
      · rw [if_neg (by rintro ⟨ha, hb⟩; linarith),
          if_neg (by rintro ⟨ha, hb⟩; linarith),
          if_pos ⟨h2.le, h3.le⟩,
          if_neg (by rintro ⟨ha, hb⟩; linarith),
          if_neg (by rintro ⟨ha, hb⟩; linarith),
          if_neg (by rintro (h | h | h | h) <;> linarith)] <;> norm_num
      · rw [if_neg (by rintro ⟨ha, hb⟩; linarith),
          if_neg (by rintro ⟨ha, hb⟩; linarith),
          if_pos ⟨h2.le, h3.le⟩,
          if_pos ⟨h3.ge, by linarith⟩,
          if_neg (by rintro ⟨ha, hb⟩; linarith),
          if_pos (Or.inr (Or.inr (Or.inl h3)))] <;> norm_num
      · rcases lt_trichotomy x (0.9 * t) with h4 | h4 | h4
        · rw [if_neg (by rintro ⟨ha, hb⟩; linarith),
            if_neg (by rintro ⟨ha, hb⟩; linarith),
            if_neg (by rintro ⟨ha, hb⟩; linarith),
            if_pos ⟨h3.le, h4.le⟩,
            if_neg (by rintro ⟨ha, hb⟩; linarith),
            if_neg (by rintro (h | h | h | h) <;> linarith)] <;> norm_num
        · rw [if_neg (by rintro ⟨ha, hb⟩; linarith),
            if_neg (by rintro ⟨ha, hb⟩; linarith),
            if_neg (by rintro ⟨ha, hb⟩; linarith),
            if_pos ⟨h3.le, h4.le⟩,
            if_pos ⟨h4.ge, hhi⟩,
            if_pos (Or.inr (Or.inr (Or.inr h4)))] <;> norm_num
        · rw [if_neg (by rintro ⟨ha, hb⟩; linarith),
            if_neg (by rintro ⟨ha, hb⟩; linarith),
            if_neg (by rintro ⟨ha, hb⟩; linarith),
            if_neg (by rintro ⟨ha, hb⟩; linarith),
            if_pos ⟨h4.le, hhi⟩,
            if_neg (by rintro (h | h | h | h) <;> linarith)] <;> norm_num

/-- Every nonnegative power value lies in exactly one zone of the 6-zone
table, or exactly two when it sits on a shared boundary. -/
lemma power_zoneCount_eq (f x : ℚ) (hf : 0 < f) (hx : 0 ≤ x) :
    zoneCount (powerZoneTable f) x =
      if powerSharedBoundary f x then 2 else 1 := by
  rw [zoneCount_eq_sum] <;> norm_num
  simp only [powerZoneTable, List.map_cons, List.map_nil, List.sum_cons,
    List.sum_nil, inZone, Bool.and_eq_true, Bool.and_true, and_true,
    decide_eq_true_eq, powerSharedBoundary]
  rcases lt_trichotomy x (0.55 * f) with h1 | h1 | h1
  · rw [if_pos ⟨hx, h1.le⟩,
      if_neg (by rintro ⟨ha, hb⟩; linarith),
      if_neg (by rintro ⟨ha, hb⟩; linarith),
      if_neg (by rintro ⟨ha, hb⟩; linarith),
      if_neg (by rintro ⟨ha, hb⟩; linarith),
      if_neg (by intro h; linarith),
      if_neg (by rintro (h | h | h | h | h) <;> linarith)] <;> norm_num
  · rw [if_pos ⟨hx, h1.le⟩,
      if_pos ⟨h1.ge, by linarith⟩,
      if_neg (by rintro ⟨ha, hb⟩; linarith),
      if_neg (by rintro ⟨ha, hb⟩; linarith),
      if_neg (by rintro ⟨ha, hb⟩; linarith),
      if_neg (by intro h; linarith),
      if_pos (Or.inl h1)] <;> norm_num
  · rcases lt_trichotomy x (0.75 * f) with h2 | h2 | h2
    · rw [if_neg (by rintro ⟨ha, hb⟩; linarith),
        if_pos ⟨h1.le, h2.le⟩,
        if_neg (by rintro ⟨ha, hb⟩; linarith),
        if_neg (by rintro ⟨ha, hb⟩; linarith),
        if_neg (by rintro ⟨ha, hb⟩; linarith),
        if_neg (by intro h; linarith),
        if_neg (by rintro (h | h | h | h | h) <;> linarith)] <;> norm_num
    · rw [if_neg (by rintro ⟨ha, hb⟩; linarith),
        if_pos ⟨h1.le, h2.le⟩,
        if_pos ⟨h2.ge, by linarith⟩,
        if_neg (by rintro ⟨ha, hb⟩; linarith),
        if_neg (by rintro ⟨ha, hb⟩; linarith),
        if_neg (by intro h; linarith),
        if_pos (Or.inr (Or.inl h2))] <;> norm_num
    · rcases lt_trichotomy x (0.90 * f) with h3 | h3 | h3
      · rw [if_neg (by rintro ⟨ha, hb⟩; linarith),
          if_neg (by rintro ⟨ha, hb⟩; linarith),
          if_pos ⟨h2.le, h3.le⟩,
          if_neg (by rintro ⟨ha, hb⟩; linarith),
          if_neg (by rintro ⟨ha, hb⟩; linarith),
          if_neg (by intro h; linarith),
          if_neg (by rintro (h | h | h | h | h) <;> linarith)] <;> norm_num
      · rw [if_neg (by rintro ⟨ha, hb⟩; linarith),
          if_neg (by rintro ⟨ha, hb⟩; linarith),
          if_pos ⟨h2.le, h3.le⟩,
          if_pos ⟨h3.ge, by linarith⟩,
          if_neg (by rintro ⟨ha, hb⟩; linarith),
          if_neg (by intro h; linarith),
          if_pos (Or.inr (Or.inr (Or.inl h3)))] <;> norm_num
      · rcases lt_trichotomy x (1.05 * f) with h4 | h4 | h4
        · rw [if_neg (by rintro ⟨ha, hb⟩; linarith),
            if_neg (by rintro ⟨ha, hb⟩; linarith),
            if_neg (by rintro ⟨ha, hb⟩; linarith),
            if_pos ⟨h3.le, h4.le⟩,
            if_neg (by rintro ⟨ha, hb⟩; linarith),
            if_neg (by intro h; linarith),
            if_neg (by rintro (h | h | h | h | h) <;> linarith)] <;> norm_num
        · rw [if_neg (by rintro ⟨ha, hb⟩; linarith),
            if_neg (by rintro ⟨ha, hb⟩; linarith),
            if_neg (by rintro ⟨ha, hb⟩; linarith),
            if_pos ⟨h3.le, h4.le⟩,
            if_pos ⟨h4.ge, by linarith⟩,
            if_neg (by intro h; linarith),
            if_pos (Or.inr (Or.inr (Or.inr (Or.inl h4))))] <;> norm_num
        · rcases lt_trichotomy x (1.20 * f) with h5 | h5 | h5
          · rw [if_neg (by rintro ⟨ha, hb⟩; linarith),
              if_neg (by rintro ⟨ha, hb⟩; linarith),
              if_neg (by rintro ⟨ha, hb⟩; linarith),
              if_neg (by rintro ⟨ha, hb⟩; linarith),
              if_pos ⟨h4.le, h5.le⟩,
              if_neg (by intro h; linarith),
              if_neg (by rintro (h | h | h | h | h) <;> linarith)] <;> norm_num
          · rw [if_neg (by rintro ⟨ha, hb⟩; linarith),
              if_neg (by rintro ⟨ha, hb⟩; linarith),
              if_neg (by rintro ⟨ha, hb⟩; linarith),
              if_neg (by rintro ⟨ha, hb⟩; linarith),
              if_pos ⟨h4.le, h5.le⟩,
              if_pos h5.ge,
              if_pos (Or.inr (Or.inr (Or.inr (Or.inr h5))))] <;> norm_num
          · rw [if_neg (by rintro ⟨ha, hb⟩; linarith),
              if_neg (by rintro ⟨ha, hb⟩; linarith),
              if_neg (by rintro ⟨ha, hb⟩; linarith),
              if_neg (by rintro ⟨ha, hb⟩; linarith),
              if_neg (by rintro ⟨ha, hb⟩; linarith),
              if_pos h5.le,
              if_neg (by rintro (h | h | h | h | h) <;> linarith)] <;> norm_num

/-- Summing per-sample zone counts: each sample contributes 1, boundary
samples contribute 2. -/
lemma sum_zoneCount_eq (table : List Zone) (P : ℚ → Prop) [DecidablePred P]
    (data : List ℚ)
    (h : ∀ x ∈ data, zoneCount table x = if P x then 2 else 1) :
    (data.map (fun x => zoneCount table x)).sum =
      data.length + data.countP (fun x => decide (P x)) := by
  induction data with
  | nil => simp
  | cons x xs ih =>
    rw [List.map_cons, List.sum_cons, h x (List.mem_cons_self x xs),
      ih (fun y hy => h y (List.mem_cons_of_mem x hy)),
      List.countP_cons, List.length_cons]
    by_cases hx : P x
    · simp only [decide_eq_true_eq, if_pos hx]
      omega
    · simp only [decide_eq_true_eq, if_neg hx]
      omega

/-- The shared core of the amended claim for one table: with every sample
in range, the percentage sum is at least 100, exceeding 100 exactly when
some sample sits on a shared boundary. -/
lemma percent_sum_core (table : List Zone) (P : ℚ → Prop) [DecidablePred P]
    (data : List ℚ) (hd : data ≠ [])
    (h : ∀ x ∈ data, zoneCount table x = if P x then 2 else 1) :
    100 ≤ zonePercentSum (calcZonePercents data table) ∧
      (100 < zonePercentSum (calcZonePercents data table) ↔
        ∃ x ∈ data, P x) := by
  have heq : zonePercentSum (calcZonePercents data table) =
      ((data.length + data.countP (fun x => decide (P x)) : ℕ) : ℚ) /
        (data.length : ℚ) * 100 := by
    rw [zonePercentSum_eq data table hd, zoneHits_eq, sum_zoneCount_eq table P data h]
  have hn : 0 < (data.length : ℚ) := by
    exact_mod_cast List.length_pos.mpr hd
  have hbpos : (100 < zonePercentSum (calcZonePercents data table)) ↔
      0 < data.countP (fun x => decide (P x)) := by
    rw [heq, div_mul_eq_mul_div, lt_div_iff₀ hn]
    push_cast
    constructor
    · intro hlt
      by_contra h0
      push_neg at h0
      have hz : data.countP (fun x => decide (P x)) = 0 := Nat.le_zero.mp h0
      rw [hz] at hlt
      push_cast at hlt
      linarith
    · intro hpos
      have : (1 : ℚ) ≤ (data.countP (fun x => decide (P x)) : ℚ) := by
        exact_mod_cast hpos
      linarith
  refine ⟨?_, ?_⟩
  · rw [heq, div_mul_eq_mul_div, le_div_iff₀ hn]
    push_cast
    have : (0 : ℚ) ≤ (data.countP (fun x => decide (P x)) : ℚ) :=
      Nat.cast_nonneg _
    linarith
  · rw [hbpos, List.countP_pos_iff]
    simp only [decide_eq_true_eq]

/-- Counterexample to claim C2 as stated: the single-sample heart-rate
channel [100] with threshold 190 lies strictly inside Zone 1, so the
percentages sum to exactly 100 (hence at least 100) while no sample sits
on a shared boundary: the stated equivalence fails. -/
theorem C2_counterexample :
    ¬((100 ≤ zonePercentSum (calculateHrZones [100] 190)) ↔
      ∃ x ∈ ([100] : List ℚ), hrSharedBoundary 190 x) := by
  have h1 : zonePercentSum (calculateHrZones [100] 190) = 100 := by
    norm_num [zonePercentSum, calculateHrZones, calcZonePercents, hrZoneTable,
      inZone, List.filter]
  have h2 : ¬ ∃ x ∈ ([100] : List ℚ), hrSharedBoundary 190 x := by
    rintro ⟨x, hx, hb⟩
    simp only [List.mem_singleton] at hx
    subst hx
    rcases hb with h | h | h | h <;> norm_num at h
  intro hiff
  exact h2 (hiff.mp (le_of_eq h1.symm))

/-- Claim C2 amended: for an empty channel every zone value is 0 in both
calculators; for a non-empty channel whose samples all lie within the zone
span (between half the threshold and the threshold for heart rate;
nonnegative for power), the percentages sum to at least 100, and the sum
strictly exceeds 100 exactly when some sample value sits on a boundary
shared by two adjacent zones. -/
theorem C2_zone_percentages_amended (t f : ℚ) (hrData pData : List ℚ)
    (ht : 0 < t) (hf : 0 < f)
    (hhr : ∀ x ∈ hrData, 0.5 * t ≤ x ∧ x ≤ t) (hp : ∀ x ∈ pData, 0 ≤ x)
    (hn : hrData ≠ []) (hm : pData ≠ []) :
    (∀ z ∈ calculateHrZones [] t, z.2 = 0) ∧
    (∀ z ∈ calculatePowerZones [] f, z.2 = 0) ∧
    (100 ≤ zonePercentSum (calculateHrZones hrData t) ∧
      (100 < zonePercentSum (calculateHrZones hrData t) ↔
        ∃ x ∈ hrData, hrSharedBoundary t x)) ∧
    (100 ≤ zonePercentSum (calculatePowerZones pData f) ∧
      (100 < zonePercentSum (calculatePowerZones pData f) ↔
        ∃ x ∈ pData, powerSharedBoundary f x)) := by
  refine ⟨?_, ?_, ?_, ?_⟩
  · intro z hz
    simp only [calculateHrZones, calcZonePercents, List.mem_map] at hz
    obtain ⟨w, _, hw⟩ := hz
    rw [← hw]
    simp
  · intro z hz
    simp only [calculatePowerZones, calcZonePercents, List.mem_map] at hz
    obtain ⟨w, _, hw⟩ := hz
    rw [← hw]
    simp
  · exact percent_sum_core (hrZoneTable t) (hrSharedBoundary t) hrData hn
      (fun x hx => hr_zoneCount_eq t x ht (hhr x hx).1 (hhr x hx).2)
  · exact percent_sum_core (powerZoneTable f) (powerSharedBoundary f) pData hm
      (fun x hx => power_zoneCount_eq f x hf (hp x hx))

/-- Witness for the amended C2 at threshold 190 bpm and FTP 250 W, with a
boundary sample 114 = 0.6 of 190 in the heart-rate data and an interior
power sample: both inequalities and both equivalences instantiate. -/
theorem C2_witness :
    (∀ z ∈ calculateHrZones [] 190, z.2 = 0) ∧
    (∀ z ∈ calculatePowerZones [] 250, z.2 = 0) ∧
    (100 ≤ zonePercentSum (calculateHrZones [114, 100] 190) ∧
      (100 < zonePercentSum (calculateHrZones [114, 100] 190) ↔
        ∃ x ∈ ([114, 100] : List ℚ), hrSharedBoundary 190 x)) ∧
    (100 ≤ zonePercentSum (calculatePowerZones [10, 300] 250) ∧
      (100 < zonePercentSum (calculatePowerZones [10, 300] 250) ↔
        ∃ x ∈ ([10, 300] : List ℚ), powerSharedBoundary 250 x)) :=
  C2_zone_percentages_amended 190 250 [114, 100] [10, 300]
    (by norm_num) (by norm_num)
    (by
      intro x hx
      simp only [List.mem_cons, List.not_mem_nil, or_false] at hx
      rcases hx with h | h <;> subst h <;> norm_num)
    (by
      intro x hx
      simp only [List.mem_cons, List.not_mem_nil, or_false] at hx
      rcases hx with h | h <;> subst h <;> norm_num)
    (by simp) (by simp)

end JulesApp
